import Mathlib

/-
Shallow embedding of the MCP channel plugin
(src/apps/desktop/windows/runner/mcp_channel_plugin.cpp / .h).

The plugin manages one Node.js child process and correlates
request/response pairs by a string request id.  The embedding models:

* the child process state (NodeJsProcess: Start / Stop / SendMessage),
* the plugin session state (is_initialized_, pending_requests_,
  the event sink of the stream handler),
* the operations InitializeMcp, ProcessMessage, DisposeMcp,
* the inbound message handler HandleNodeMessage with its substring-based
  field extraction, and
* the output reader loop (ReadOutputThread) with its newline buffering.

Win32 handles, mutexes and threads are not modelled: operations are
state-passing functions, the success of CreateProcessA and WriteFile is an
explicit Bool oracle argument, and the reader thread is a function of the
sequence of ReadFile results.  A MethodResult handle is modelled as a Nat;
a delivery to a handle (result->Success / result->Error) is recorded in a
completion list.  EncodableValueToJsonString of the caller's request map is
carried opaquely as the paramsJson field of a Request, and
JsonStringToEncodableValue of a line (which wraps the raw line in a
one-entry map) is represented by the raw line itself.
-/

namespace Mcp

/-- Outcome delivered to one MethodResult handle: result->Success with a
payload (represented by the raw line or message string that determines it),
or result->Error with an error code and message. -/
inductive Outcome where
  | ok (payload : String)
  | err (code : String) (msg : String)
  deriving Repr, DecidableEq

/-- Error code of an outcome, none for a success. -/
def errCode : Outcome → Option String
  | Outcome.ok _ => none
  | Outcome.err c _ => some c

/-- State of the NodeJsProcess object.  Pipe handles and the two reader
threads are not modelled; is_running_ is the field the guards read. -/
structure ProcState where
  is_running : Bool
  deriving Repr, DecidableEq

/-- NodeJsProcess::Start: returns true immediately when already running;
otherwise the success of CreateProcessA is the oracle argument ok.
On success the process is running, on failure the state is unchanged. -/
def Start (p : ProcState) (ok : Bool) : ProcState × Bool :=
  if p.is_running then (p, true)
  else if ok then ({ is_running := true }, true)
  else (p, false)

/-- NodeJsProcess::Stop: after it, the process is not running.
(Handle closing and thread joining are not modelled.) -/
def Stop (_p : ProcState) : ProcState :=
  { is_running := false }

/-- NodeJsProcess::SendMessage: fails when the process is not running
(or the stdin handle is invalid, which coincides with not running);
otherwise the success of WriteFile is the oracle argument writeOk. -/
def SendMessage (p : ProcState) (writeOk : Bool) : Bool :=
  p.is_running && writeOk

/-- The pending_requests_ std::map, as an association list from request id
to the MethodResult handle (a Nat).  std::map keys are unique; theorems
that need this carry a Nodup hypothesis on the key list. -/
abbrev PendingMap := List (String × Nat)

/-- Lookup in the pending map (std::map::find). -/
def mapFind : PendingMap → String → Option Nat
  | [], _ => none
  | (k', v') :: rest, k => if k' = k then some v' else mapFind rest k

/-- Insert-or-replace in the pending map (std::map::operator[] assignment):
replaces the value at an existing key, otherwise appends the new entry. -/
def mapInsert : PendingMap → String → Nat → PendingMap
  | [], k, v => [(k, v)]
  | (k', v') :: rest, k, v =>
    if k' = k then (k, v) :: rest else (k', v') :: mapInsert rest k v

/-- Remove the entry at a key (std::map::erase of the found iterator). -/
def mapErase : PendingMap → String → PendingMap
  | [], _ => []
  | (k', v') :: rest, k => if k' = k then rest else (k', v') :: mapErase rest k

/-- Number of entries in the map carrying a given key. -/
def countKey (m : PendingMap) (k : String) : Nat :=
  (m.filter (fun p => p.1 = k)).length

/-- Session state of the plugin: the initialized flag, the child process,
the pending-request table, whether the event stream handler currently has
an event sink attached, and whether the message callback has been set. -/
structure PluginState where
  is_initialized : Bool
  node : ProcState
  pending_requests : PendingMap
  event_sink : Bool
  callback_set : Bool
  deriving Repr, DecidableEq

/-- A caller request map, abstracted to the only field the plugin reads
(the optional requestId string) plus its opaque serialization
EncodableValueToJsonString(request). -/
structure Request where
  requestId : Option String
  paramsJson : String
  deriving Repr, DecidableEq

/-- The outgoing envelope built by string concatenation in the source:
open brace, method, params, requestId, close brace, all on one line. -/
def buildEnvelope (method paramsJson rid : String) : String :=
  "\x7b\"method\":\"" ++ method ++ "\",\"params\":" ++ paramsJson ++
    ",\"requestId\":\"" ++ rid ++ "\"\x7d"

/-- std::string::find of a needle in a haystack: index of the first
occurrence, none when absent. -/
def findSub (needle : List Char) : List Char → Option Nat
  | [] => if needle = [] then some 0 else none
  | c :: cs =>
    if needle.isPrefixOf (c :: cs) then some 0
    else (findSub needle cs).map (fun i => i + 1)

/-- Whether the needle occurs in the haystack (find != npos). -/
def containsSub (needle hay : List Char) : Bool :=
  (findSub needle hay).isSome

/-- The marker substring for response-typed messages. -/
def respMarker : List Char := "\"type\":\"response\"".data

/-- The marker substring for event-typed messages. -/
def eventMarker : List Char := "\"type\":\"event\"".data

/-- The marker substring whose presence the source takes as an error field. -/
def errMarker : List Char := "\"error\":".data

/-- The marker substring whose presence the source takes as a null error. -/
def errNullMarker : List Char := "\"error\":null".data

/-- The requestId extraction of HandleNodeMessage: find "requestId":",
skip its 13 characters, then take everything up to the next quote.
None when either find fails. -/
def extractRequestId (msg : List Char) : Option String :=
  match findSub ("\"requestId\":\"".data) msg with
  | none => none
  | some p =>
    let start := p + 13
    match findSub ['"'] (msg.drop start) with
    | none => none
    | some q => some (String.mk ((msg.drop start).take q))

/-- The error test of HandleNodeMessage: the message contains "error":
somewhere but does not contain "error":null anywhere. -/
def errorFlag (msg : List Char) : Bool :=
  containsSub errMarker msg && !(containsSub errNullMarker msg)

/-- McpChannelPlugin::HandleNodeMessage.  Returns the new state, the list
of completions delivered to pending MethodResult handles, and the list of
events forwarded to the event sink.  Response-marked lines complete and
erase the pending entry for the extracted request id when one is pending;
event-marked lines are forwarded when a sink is attached; everything else
is a no-op. -/
def HandleNodeMessage (st : PluginState) (message : String) :
    PluginState × List (Nat × Outcome) × List String :=
  if containsSub respMarker message.data then
    match extractRequestId message.data with
    | none => (st, [], [])
    | some rid =>
      match mapFind st.pending_requests rid with
      | none => (st, [], [])
      | some h =>
        let out :=
          if errorFlag message.data then
            Outcome.err "MCP_ERROR" "Error processing request"
          else Outcome.ok message
        ({ st with pending_requests := mapErase st.pending_requests rid },
         [(h, out)], [])
  else if containsSub eventMarker message.data then
    if st.event_sink then (st, [], [message]) else (st, [], [])
  else (st, [], [])

/-- McpChannelPlugin::ProcessMessage.  Arguments: the caller's request map
(abstracted), the MethodResult handle h of this call, and the WriteFile
oracle.  Returns the new state, the completions delivered, and the list of
lines successfully written to the child.  Guards: NOT_INITIALIZED outside
Ready, MISSING_REQUEST_ID when the map lacks a requestId; otherwise the id
is stored in pending_requests_ (operator[] assignment), the envelope is
sent, and on send failure the pending entry just stored is looked up,
failed with SEND_FAILED, and erased. -/
def ProcessMessage (st : PluginState) (req : Request) (h : Nat) (writeOk : Bool) :
    PluginState × List (Nat × Outcome) × List String :=
  if !st.is_initialized then
    (st, [(h, Outcome.err "NOT_INITIALIZED" "MCP not initialized")], [])
  else
    match req.requestId with
    | none => (st, [(h, Outcome.err "MISSING_REQUEST_ID" "Request ID is required")], [])
    | some rid =>
      let st1 := { st with pending_requests := mapInsert st.pending_requests rid h }
      let message := buildEnvelope "processMessage" req.paramsJson rid
      if SendMessage st1.node writeOk then
        (st1, [], [message])
      else
        match mapFind st1.pending_requests rid with
        | some h2 =>
          ({ st1 with pending_requests := mapErase st1.pending_requests rid },
           [(h2, Outcome.err "SEND_FAILED" "Failed to send message to MCP process")], [])
        | none => (st1, [], [])

/-- McpChannelPlugin::InitializeMcp.  Arguments: the serialized config,
the steady-clock tick used to build the init request id, the
CreateProcessA and WriteFile oracles, and the MethodResult handle h.
Already initialized is a no-op success; otherwise the message callback is
set, the process is started (failure: INITIALIZATION_FAILED), the init
envelope is sent (failure: INITIALIZATION_FAILED), and only then is
is_initialized_ set — the child's reply is never awaited. -/
def InitializeMcp (st : PluginState) (configJson : String) (tick : Nat)
    (startOk writeOk : Bool) (h : Nat) :
    PluginState × List (Nat × Outcome) × List String :=
  if st.is_initialized then
    (st, [(h, Outcome.ok "Already initialized")], [])
  else
    let st1 := { st with callback_set := true }
    let startRes := Start st1.node startOk
    if !startRes.2 then
      ({ st1 with node := startRes.1 },
       [(h, Outcome.err "INITIALIZATION_FAILED" "Failed to start Node.js MCP process")], [])
    else
      let st2 := { st1 with node := startRes.1 }
      let initMsg := buildEnvelope "initialize" configJson ("init_" ++ toString tick)
      if SendMessage st2.node writeOk then
        ({ st2 with is_initialized := true },
         [(h, Outcome.ok "MCP initialized successfully")], [initMsg])
      else
        (st2, [(h, Outcome.err "INITIALIZATION_FAILED" "Failed to send initialization config")], [])

/-- McpChannelPlugin::DisposeMcp: stops the node process, clears
is_initialized_, and reports success to the dispose caller's handle h.
The source touches neither pending_requests_ nor the event sink. -/
def DisposeMcp (st : PluginState) (h : Nat) :
    PluginState × List (Nat × Outcome) × List String :=
  ({ st with node := Stop st.node, is_initialized := false },
   [(h, Outcome.ok "MCP disposed")], [])

/-- The newline scan of ReadOutputThread on one accumulated buffer:
the list of complete lines (each terminated by a newline that was removed)
in order, and the trailing partial data kept for the next read. -/
def splitLines : List Char → List (List Char) × List Char
  | [] => ([], [])
  | c :: cs =>
    if c = '\n' then ([] :: (splitLines cs).1, (splitLines cs).2)
    else
      match splitLines cs with
      | ([], rem) => ([], c :: rem)
      | (l :: ls, rem) => ((c :: l) :: ls, rem)

/-- NodeJsProcess::ReadOutputThread as a function of the sequence of
ReadFile results: some chunk is a successful read of those bytes, none is
a failed read or stream closure, on which the loop breaks.  Each chunk is
appended to the accumulated data, every complete line is extracted, and
each nonempty complete line is passed to the message callback; the
returned list is the sequence of callback invocations.  (Loop exit via
Stop flipping is_running_ is represented by ending the read sequence;
the NUL-truncation of chunks containing a zero byte is outside the model,
chunks are taken to be NUL-free text.) -/
def ReadOutputLoop (acc : List Char) : List (Option (List Char)) → List (List Char)
  | [] => []
  | none :: _ => []
  | some chunk :: rest =>
    (splitLines (acc ++ chunk)).1.filter (fun l => l ≠ []) ++
      ReadOutputLoop (splitLines (acc ++ chunk)).2 rest

/-- Feed a list of decoded lines through HandleNodeMessage in order,
collecting all completions and event deliveries. -/
def HandleMessages (st : PluginState) : List String →
    PluginState × List (Nat × Outcome) × List String
  | [] => (st, [], [])
  | m :: rest =>
    let r := HandleNodeMessage st m
    let r2 := HandleMessages r.1 rest
    (r2.1, r.2.1 ++ r2.2.1, r.2.2 ++ r2.2.2)

/-- The combined effect of the output reader on the plugin state: decode
the read sequence into lines and run the message callback
(HandleNodeMessage) on each. -/
def RunReader (st : PluginState) (acc : List Char)
    (reads : List (Option (List Char))) :
    PluginState × List (Nat × Outcome) × List String :=
  HandleMessages st ((ReadOutputLoop acc reads).map String.mk)

/-! Lemmas about the pending map.  The Nodup hypotheses state the std::map
representation invariant: every key occurs at most once. -/

theorem mapFind_mapInsert_self (m : PendingMap) (k : String) (v : Nat) :
    mapFind (mapInsert m k v) k = some v := by
  induction m with
  | nil => simp [mapInsert, mapFind]
  | cons p rest ih =>
    obtain ⟨k', v'⟩ := p
    by_cases hk : k' = k
    · simp [mapInsert, mapFind, hk]
    · simp [mapInsert, mapFind, hk, ih]

theorem mapFind_eq_none_of_not_mem (m : PendingMap) (k : String)
    (h : k ∉ m.map Prod.fst) : mapFind m k = none := by
  induction m with
  | nil => simp [mapFind]
  | cons p rest ih =>
    obtain ⟨k', v'⟩ := p
    simp only [List.map_cons, List.mem_cons] at h
    push_neg at h
    have h1 : k' ≠ k := fun hh => h.1 hh.symm
    simp [mapFind, h1, ih h.2]

theorem mapFind_mapErase_self (m : PendingMap) (k : String)
    (hnd : (m.map Prod.fst).Nodup) : mapFind (mapErase m k) k = none := by
  induction m with
  | nil => simp [mapErase, mapFind]
  | cons p rest ih =>
    obtain ⟨k', v'⟩ := p
    simp only [List.map_cons, List.nodup_cons] at hnd
    by_cases hk : k' = k
    · subst hk
      simp only [mapErase, if_pos rfl]
      exact mapFind_eq_none_of_not_mem rest k' hnd.1
    · simp [mapErase, hk, mapFind, ih hnd.2]

theorem mapInsert_cons_pos (rest : PendingMap) (k k' : String) (v v' : Nat)
    (hk : k' = k) : mapInsert ((k', v') :: rest) k v = (k, v) :: rest := by
  simp [mapInsert, hk]

theorem mapInsert_cons_neg (rest : PendingMap) (k k' : String) (v v' : Nat)
    (hk : k' ≠ k) :
    mapInsert ((k', v') :: rest) k v = (k', v') :: mapInsert rest k v := by
  simp [mapInsert, hk]

theorem countKey_cons_pos (m : PendingMap) (k k' : String) (v' : Nat)
    (hk : k' = k) : countKey ((k', v') :: m) k = countKey m k + 1 := by
  simp [countKey, List.filter_cons, hk]

theorem countKey_cons_neg (m : PendingMap) (k k' : String) (v' : Nat)
    (hk : k' ≠ k) : countKey ((k', v') :: m) k = countKey m k := by
  simp [countKey, List.filter_cons, hk]

theorem mem_keys_mapInsert (m : PendingMap) (k x : String) (v : Nat)
    (h : x ∈ (mapInsert m k v).map Prod.fst) : x ∈ m.map Prod.fst ∨ x = k := by
  induction m with
  | nil => simpa [mapInsert] using h
  | cons p rest ih =>
    obtain ⟨k', v'⟩ := p
    by_cases hk : k' = k
    · rw [mapInsert_cons_pos rest k k' v v' hk] at h
      simp only [List.map_cons, List.mem_cons] at h
      simp only [List.map_cons, List.mem_cons]
      tauto
    · rw [mapInsert_cons_neg rest k k' v v' hk] at h
      simp only [List.map_cons, List.mem_cons] at h
      simp only [List.map_cons, List.mem_cons]
      rcases h with h | h
      · tauto
      · rcases ih h with h2 | h2 <;> tauto

theorem nodup_keys_mapInsert (m : PendingMap) (k : String) (v : Nat)
    (hnd : (m.map Prod.fst).Nodup) : ((mapInsert m k v).map Prod.fst).Nodup := by
  induction m with
  | nil => simp [mapInsert]
  | cons p rest ih =>
    obtain ⟨k', v'⟩ := p
    simp only [List.map_cons, List.nodup_cons] at hnd
    by_cases hk : k' = k
    · rw [mapInsert_cons_pos rest k k' v v' hk]
      simp only [List.map_cons, List.nodup_cons]
      exact ⟨hk ▸ hnd.1, hnd.2⟩
    · rw [mapInsert_cons_neg rest k k' v v' hk]
      simp only [List.map_cons, List.nodup_cons]
      refine ⟨?_, ih hnd.2⟩
      intro hmem
      rcases mem_keys_mapInsert rest k k' v hmem with h2 | h2
      · exact hnd.1 h2
      · exact hk h2

theorem countKey_eq_zero_of_not_mem (m : PendingMap) (k : String)
    (h : k ∉ m.map Prod.fst) : countKey m k = 0 := by
  induction m with
  | nil => simp [countKey]
  | cons p rest ih =>
    obtain ⟨k', v'⟩ := p
    simp only [List.map_cons, List.mem_cons] at h
    push_neg at h
    have h1 : k' ≠ k := fun hh => h.1 hh.symm
    rw [countKey_cons_neg rest k k' v' h1]
    exact ih h.2

theorem countKey_mapInsert (m : PendingMap) (k : String) (v : Nat)
    (hnd : (m.map Prod.fst).Nodup) : countKey (mapInsert m k v) k = 1 := by
  induction m with
  | nil => simp [mapInsert, countKey]
  | cons p rest ih =>
    obtain ⟨k', v'⟩ := p
    simp only [List.map_cons, List.nodup_cons] at hnd
    by_cases hk : k' = k
    · rw [mapInsert_cons_pos rest k k' v v' hk, countKey_cons_pos rest k k v rfl,
        countKey_eq_zero_of_not_mem rest k (hk ▸ hnd.1)]
    · rw [mapInsert_cons_neg rest k k' v v' hk, countKey_cons_neg _ k k' v' hk]
      exact ih hnd.2

/-! The buffering lemma for splitLines: scanning a concatenation is the
scan of the first part followed by the scan of its remainder joined with
the second part. -/

theorem splitLines_append (a b : List Char) :
    splitLines (a ++ b) =
      ((splitLines a).1 ++ (splitLines ((splitLines a).2 ++ b)).1,
       (splitLines ((splitLines a).2 ++ b)).2) := by
  induction a with
  | nil => simp [splitLines]
  | cons c cs ih =>
    by_cases hc : c = '\n'
    · subst hc
      simp [splitLines, ih]
    · rcases hsc : splitLines cs with ⟨lcs, rcs⟩
      cases lcs with
      | nil =>
        rcases hX : splitLines (rcs ++ b) with ⟨X1, X2⟩
        cases X1 with
        | nil =>
          simp [splitLines, hc, ih, hsc, hX]
        | cons l ls =>
          simp [splitLines, hc, ih, hsc, hX]
      | cons l ls =>
        simp [splitLines, hc, ih, hsc]

/-! Helper facts about NodeJsProcess::Start. -/

theorem Start_snd (p : ProcState) (ok : Bool) :
    (Start p ok).2 = (p.is_running || ok) := by
  obtain ⟨pr⟩ := p
  cases pr <;> cases ok <;> simp [Start]

theorem Start_fst_is_running (p : ProcState) (ok : Bool) :
    (Start p ok).1.is_running = (p.is_running || ok) := by
  obtain ⟨pr⟩ := p
  cases pr <;> cases ok <;> simp [Start]

/-! Concrete sample states and lines used to evaluate the model. -/

/-- A Ready session whose pending table holds request id "1" awaiting the
MethodResult handle 7, with no event sink attached. -/
def readyWithPending : PluginState :=
  { is_initialized := true
    node := { is_running := true }
    pending_requests := [("1", 7)]
    event_sink := false
    callback_set := true }

/-- A Ready session with an empty pending table and an event sink. -/
def readyWithSink : PluginState :=
  { is_initialized := true
    node := { is_running := true }
    pending_requests := []
    event_sink := true
    callback_set := true }

/-- A fresh session: nothing initialized, no process, nothing pending. -/
def uninitState : PluginState :=
  { is_initialized := false
    node := { is_running := false }
    pending_requests := []
    event_sink := false
    callback_set := false }

/-- A response line whose top-level error field is non-null but whose
payload nests an inner object containing "error":null. -/
def nestedErrorLine : String :=
  "\x7b\"type\":\"response\",\"requestId\":\"1\",\"error\":\x7b\"msg\":\"bad\"\x7d,\"data\":\x7b\"error\":null\x7d\x7d"

/-- The same error response without the nested payload. -/
def plainErrorLine : String :=
  "\x7b\"type\":\"response\",\"requestId\":\"1\",\"error\":\x7b\"msg\":\"bad\"\x7d\x7d"

/-- A successful response line for request id "1". -/
def respLine1 : String :=
  "\x7b\"type\":\"response\",\"requestId\":\"1\",\"error\":null,\"result\":42\x7d"

/-- An event line. -/
def eventLine : String := "\x7b\"type\":\"event\",\"name\":\"progress\"\x7d"

/-- C1: the claim requires that after dispose() every request pending
before the call has received a failure completion and the pending table is
empty.  DisposeMcp in the source only stops the child process and clears
the initialized flag; no failAll exists anywhere in the code.  Evaluated
on a Ready session with request "1" pending on handle 7, the table still
holds that entry after dispose and the only delivery is the success reply
to the dispose caller's own handle 99 — handle 7 receives nothing. -/
theorem disposeMcp_leaves_pending :
    (DisposeMcp readyWithPending 99).1.pending_requests = [("1", 7)] ∧
    (DisposeMcp readyWithPending 99).2.1 = [(99, Outcome.ok "MCP disposed")] ∧
    (DisposeMcp readyWithPending 99).1.is_initialized = false :=
  ⟨rfl, rfl, rfl⟩

/-- C2: the claim requires that when the reader observes closure of the
child's output stream, every pending request is completed with a failure.
In the source, ReadOutputThread breaks out of its loop and the thread
exits; pending_requests_ is untouched.  Evaluated on a session with
request "1" pending on handle 7 and a read sequence that ends in stream
closure, the state is unchanged — the entry stays pending forever and no
completion is delivered. -/
theorem reader_closure_leaves_pending :
    RunReader readyWithPending [] [none] = (readyWithPending, [], []) ∧
    readyWithPending.pending_requests = [("1", 7)] :=
  ⟨rfl, rfl⟩

/-- C6: the claim requires that a response whose (top-level) error field
is present and non-null resolves the pending call as a failure, with the
detection correct even for nested payload content.  The source decides by
substring search: error iff the line contains "error": but not
"error":null anywhere.  On plainErrorLine this matches the claim (handle 7
fails with MCP_ERROR), but on nestedErrorLine — the same non-null
top-level error plus a nested payload object containing "error":null —
the search finds the nested "error":null and the call resolves as a
success. -/
theorem nested_error_null_misdetected :
    HandleNodeMessage readyWithPending plainErrorLine =
      ({ readyWithPending with pending_requests := [] },
       [(7, Outcome.err "MCP_ERROR" "Error processing request")], []) ∧
    HandleNodeMessage readyWithPending nestedErrorLine =
      ({ readyWithPending with pending_requests := [] },
       [(7, Outcome.ok nestedErrorLine)], []) := by
  constructor <;> rfl

/-- C8 counterexample: the claim says the reader emits exactly one decoded
message per newline discovered.  Feeding the single chunk "a\n\nb\n"
(three newlines, one of them terminating an empty line) emits only the two
messages "a" and "b", because the source skips empty lines. -/
theorem reader_newline_counterexample :
    ReadOutputLoop [] [some ("a\n\nb\n".data)] = ["a".data, "b".data] ∧
    ("a\n\nb\n".data.filter (fun c => c = '\n')).length = 3 ∧
    (ReadOutputLoop [] [some ("a\n\nb\n".data)]).length ≠
      ("a\n\nb\n".data.filter (fun c => c = '\n')).length := by
  refine ⟨?_, ?_, ?_⟩ <;> decide

/-- C8 (amended): the reader emits exactly one decoded message per newline
that terminates a non-empty line — empty lines are skipped — and partial
trailing data is retained across reads: splitting a chunk at any point
yields exactly the same emitted messages as the unsplit chunk, so a line
split mid-way across two reads yields exactly one message once the
newline arrives, never two partial messages. -/
theorem reader_buffering (acc a b : List Char) (rest : List (Option (List Char))) :
    ReadOutputLoop acc (some (a ++ b) :: rest) =
      ReadOutputLoop acc (some a :: some b :: rest) ∧
    ReadOutputLoop acc [some a] =
      (splitLines (acc ++ a)).1.filter (fun l => l ≠ []) := by
  constructor
  · simp only [ReadOutputLoop]
    rw [← List.append_assoc acc a b, splitLines_append (acc ++ a) b]
    simp [List.filter_append, List.append_assoc]
  · simp [ReadOutputLoop]

/-- A response-marked line whose extracted request id is not pending is a
no-op: no completion, no event, no state change. -/
theorem handle_response_not_pending (st : PluginState) (msg r : String)
    (hr : containsSub respMarker msg.data = true)
    (hi : extractRequestId msg.data = some r)
    (hf : mapFind st.pending_requests r = none) :
    HandleNodeMessage st msg = (st, [], []) := by
  simp [HandleNodeMessage, hr, hi, hf]

/-- After a response-marked line for id r is handled, r is no longer in
the pending table (whether or not it was pending before). -/
theorem handle_response_erases (st : PluginState) (msg r : String)
    (hr : containsSub respMarker msg.data = true)
    (hi : extractRequestId msg.data = some r)
    (hnd : (st.pending_requests.map Prod.fst).Nodup) :
    mapFind (HandleNodeMessage st msg).1.pending_requests r = none := by
  cases hf : mapFind st.pending_requests r with
  | none => rw [handle_response_not_pending st msg r hr hi hf]; exact hf
  | some h =>
    simp only [HandleNodeMessage, hr, hi, hf, if_true]
    simp [mapFind_mapErase_self st.pending_requests r hnd]

/-- C3: completion is delivered at most once per request id.  After a
response line for id r is handled (completing the pending request when one
exists), a second response line carrying the same id r is a no-op — the
state, including the pending table, is unchanged and nothing is delivered;
and any response line whose id is not in the pending table is dropped
without error and without state change. -/
theorem response_at_most_once (st : PluginState) (m1 m2 r : String)
    (hnd : (st.pending_requests.map Prod.fst).Nodup)
    (h1r : containsSub respMarker m1.data = true)
    (h1i : extractRequestId m1.data = some r)
    (h2r : containsSub respMarker m2.data = true)
    (h2i : extractRequestId m2.data = some r) :
    HandleNodeMessage (HandleNodeMessage st m1).1 m2 =
      ((HandleNodeMessage st m1).1, [], []) ∧
    (mapFind st.pending_requests r = none →
      HandleNodeMessage st m1 = (st, [], [])) := by
  refine ⟨?_, fun hf => handle_response_not_pending st m1 r h1r h1i hf⟩
  exact handle_response_not_pending _ m2 r h2r h2i
    (handle_response_erases st m1 r h1r h1i hnd)

/-- Witness for C3 at the concrete successful response line for id "1":
handling it once on a session where "1" is pending completes the call, and
handling the same line again is a no-op. -/
theorem response_at_most_once_witness :
    (readyWithPending.pending_requests.map Prod.fst).Nodup ∧
    containsSub respMarker respLine1.data = true ∧
    extractRequestId respLine1.data = some "1" ∧
    HandleNodeMessage (HandleNodeMessage readyWithPending respLine1).1 respLine1 =
      ((HandleNodeMessage readyWithPending respLine1).1, [], []) := by
  refine ⟨by decide, by decide, by decide, ?_⟩
  exact (response_at_most_once readyWithPending respLine1 respLine1 "1"
    (by decide) (by decide) (by decide) (by decide) (by decide)).1

/-- C4: the guards of ProcessMessage.  Outside Ready the call fails with
NOT_INITIALIZED; in Ready with no requestId key it fails with
MISSING_REQUEST_ID.  In both cases the state (in particular the pending
table) is returned unchanged, the only delivery is the error to the
caller's own handle, and nothing is sent to the child. -/
theorem processMessage_guards (st : PluginState) (req : Request) (h : Nat) (w : Bool) :
    (st.is_initialized = false →
      ProcessMessage st req h w =
        (st, [(h, Outcome.err "NOT_INITIALIZED" "MCP not initialized")], [])) ∧
    (st.is_initialized = true → req.requestId = none →
      ProcessMessage st req h w =
        (st, [(h, Outcome.err "MISSING_REQUEST_ID" "Request ID is required")], [])) := by
  constructor
  · intro hi
    simp [ProcessMessage, hi]
  · intro hi hr
    simp [ProcessMessage, hi, hr]

/-- A request map with no requestId key. -/
def noIdRequest : Request := { requestId := none, paramsJson := "\x7b\x7d" }

/-- Witness for C4: a fresh (uninitialized) session rejects a request with
NOT_INITIALIZED, and a Ready session rejects a request lacking a requestId
with MISSING_REQUEST_ID, each with no state change and nothing sent. -/
theorem processMessage_guards_witness :
    ProcessMessage uninitState noIdRequest 5 true =
      (uninitState, [(5, Outcome.err "NOT_INITIALIZED" "MCP not initialized")], []) ∧
    ProcessMessage readyWithSink noIdRequest 5 true =
      (readyWithSink, [(5, Outcome.err "MISSING_REQUEST_ID" "Request ID is required")], []) := by
  constructor
  · exact (processMessage_guards uninitState noIdRequest 5 true).1 rfl
  · exact (processMessage_guards readyWithSink noIdRequest 5 true).2 rfl rfl

/-- C5: in a Ready session, when the request carries id r and the send of
the envelope fails, ProcessMessage immediately completes the entry it just
registered for r with SEND_FAILED, erases it, and leaves no entry for r in
the pending table; nothing is written to the child. -/
theorem processMessage_send_failed (st : PluginState) (req : Request) (r : String)
    (h : Nat) (w : Bool)
    (hi : st.is_initialized = true) (hr : req.requestId = some r)
    (hnd : (st.pending_requests.map Prod.fst).Nodup)
    (hs : (st.node.is_running && w) = false) :
    (ProcessMessage st req h w).2.1 =
      [(h, Outcome.err "SEND_FAILED" "Failed to send message to MCP process")] ∧
    mapFind (ProcessMessage st req h w).1.pending_requests r = none ∧
    (ProcessMessage st req h w).2.2 = [] := by
  have hfind := mapFind_mapInsert_self st.pending_requests r h
  have herase := mapFind_mapErase_self (mapInsert st.pending_requests r h) r
    (nodup_keys_mapInsert st.pending_requests r h hnd)
  simp [ProcessMessage, SendMessage, hi, hr, hs, hfind, herase]

/-- A request map carrying requestId "9". -/
def request9 : Request := { requestId := some "9", paramsJson := "\x7b\x7d" }

/-- Witness for C5: a Ready session whose WriteFile fails — the caller's
handle 11 receives SEND_FAILED, id "9" is not pending afterwards, and
nothing was sent. -/
theorem processMessage_send_failed_witness :
    readyWithSink.is_initialized = true ∧
    (readyWithSink.node.is_running && false) = false ∧
    (ProcessMessage readyWithSink request9 11 false).2.1 =
      [(11, Outcome.err "SEND_FAILED" "Failed to send message to MCP process")] ∧
    mapFind (ProcessMessage readyWithSink request9 11 false).1.pending_requests "9" = none := by
  refine ⟨rfl, by decide, ?_, ?_⟩
  · exact (processMessage_send_failed readyWithSink request9 "9" 11 false
      rfl rfl (by decide) (by decide)).1
  · exact (processMessage_send_failed readyWithSink request9 "9" 11 false
      rfl rfl (by decide) (by decide)).2.1

/-- C7: event fan-out.  For a line not marked as a response but marked as
an event: with an event sink attached, the line is forwarded to the sink
exactly once (the singleton event list) and nothing else happens; with no
sink attached, there is no delivery and no error, and the state is
unchanged in both cases. -/
theorem event_forwarding (st : PluginState) (msg : String)
    (hnr : containsSub respMarker msg.data = false)
    (hev : containsSub eventMarker msg.data = true) :
    (st.event_sink = true → HandleNodeMessage st msg = (st, [], [msg])) ∧
    (st.event_sink = false → HandleNodeMessage st msg = (st, [], [])) := by
  constructor <;> intro hs <;> simp [HandleNodeMessage, hnr, hev, hs]

/-- Witness for C7 at the concrete event line: one delivery with a sink
attached, none without. -/
theorem event_forwarding_witness :
    containsSub respMarker eventLine.data = false ∧
    containsSub eventMarker eventLine.data = true ∧
    HandleNodeMessage readyWithSink eventLine = (readyWithSink, [], [eventLine]) ∧
    HandleNodeMessage readyWithPending eventLine = (readyWithPending, [], []) := by
  refine ⟨by decide, by decide, ?_, ?_⟩
  · exact (event_forwarding readyWithSink eventLine (by decide) (by decide)).1 rfl
  · exact (event_forwarding readyWithPending eventLine (by decide) (by decide)).2 rfl

/-- C9: InitializeMcp.  Already Ready: a full no-op success.  Not Ready:
when the process start (already running, or CreateProcessA succeeding) and
the WriteFile of the initialize envelope both succeed, the session becomes
Ready immediately — the child's reply is not awaited, there is no reply
input to the function at all.  When the start or the send fails, the call
reports INITIALIZATION_FAILED and the session is left not Ready. -/
theorem initializeMcp_spec (st : PluginState) (cfg : String) (t : Nat)
    (so wo : Bool) (h : Nat) :
    (st.is_initialized = true →
      InitializeMcp st cfg t so wo h =
        (st, [(h, Outcome.ok "Already initialized")], [])) ∧
    (st.is_initialized = false → (st.node.is_running || so) = true → wo = true →
      (InitializeMcp st cfg t so wo h).1.is_initialized = true ∧
      (InitializeMcp st cfg t so wo h).2.1 =
        [(h, Outcome.ok "MCP initialized successfully")]) ∧
    (st.is_initialized = false → ((st.node.is_running || so) = false ∨ wo = false) →
      (InitializeMcp st cfg t so wo h).1.is_initialized = false ∧
      (InitializeMcp st cfg t so wo h).2.1.map (fun c => (c.1, errCode c.2)) =
        [(h, some "INITIALIZATION_FAILED")]) := by
  refine ⟨fun hi => by simp [InitializeMcp, hi], ?_, ?_⟩
  · intro hi hst hw
    have h1 : (Start st.node so).2 = true := by rw [Start_snd]; exact hst
    have h2 : (Start st.node so).1.is_running = true := by
      rw [Start_fst_is_running]; exact hst
    simp [InitializeMcp, SendMessage, hi, h1, h2, hw]
  · intro hi hd
    rcases hd with hst | hw
    · have h1 : (Start st.node so).2 = false := by rw [Start_snd]; exact hst
      simp [InitializeMcp, hi, h1, errCode]
    · cases hst : (st.node.is_running || so) with
      | false =>
        have h1 : (Start st.node so).2 = false := by rw [Start_snd]; exact hst
        simp [InitializeMcp, hi, h1, errCode]
      | true =>
        have h1 : (Start st.node so).2 = true := by rw [Start_snd]; exact hst
        have h2 : (Start st.node so).1.is_running = true := by
          rw [Start_fst_is_running]; exact hst
        simp [InitializeMcp, SendMessage, hi, h1, h2, hw, errCode]

/-- Witness for C9: an already-Ready session is a no-op success; a fresh
session becomes Ready when start and send succeed; a fresh session whose
process fails to start stays not Ready. -/
theorem initializeMcp_spec_witness :
    InitializeMcp readyWithSink "\x7b\x7d" 0 true true 3 =
      (readyWithSink, [(3, Outcome.ok "Already initialized")], []) ∧
    (InitializeMcp uninitState "\x7b\x7d" 0 true true 3).1.is_initialized = true ∧
    (InitializeMcp uninitState "\x7b\x7d" 0 false true 3).1.is_initialized = false := by
  refine ⟨(initializeMcp_spec readyWithSink "\x7b\x7d" 0 true true 3).1 rfl, ?_, ?_⟩
  · exact ((initializeMcp_spec uninitState "\x7b\x7d" 0 true true 3).2.1
      rfl (by decide) rfl).1
  · exact ((initializeMcp_spec uninitState "\x7b\x7d" 0 false true 3).2.2
      rfl (Or.inl (by decide))).1

/-- C10: request-id collision in ProcessMessage.  In a Ready session where
id r is already pending on handle hOld and the send succeeds, registering
r again stores the new handle over the old entry (operator[] assignment):
no completion of any kind is delivered during the call — in particular the
displaced handle hOld receives neither success nor failure, and it is no
longer in the table for a later response to reach — and afterwards the
table holds exactly one entry for r, the new handle. -/
theorem processMessage_overwrite (st : PluginState) (req : Request) (r : String)
    (hOld hNew : Nat) (w : Bool)
    (hi : st.is_initialized = true) (hr : req.requestId = some r)
    (_hold : mapFind st.pending_requests r = some hOld)
    (hnd : (st.pending_requests.map Prod.fst).Nodup)
    (hs : (st.node.is_running && w) = true) :
    (ProcessMessage st req hNew w).2.1 = [] ∧
    (ProcessMessage st req hNew w).1.pending_requests =
      mapInsert st.pending_requests r hNew ∧
    mapFind (ProcessMessage st req hNew w).1.pending_requests r = some hNew ∧
    countKey (ProcessMessage st req hNew w).1.pending_requests r = 1 := by
  simp [ProcessMessage, SendMessage, hi, hr, hs, mapFind_mapInsert_self,
    countKey_mapInsert st.pending_requests r hNew hnd]

/-- A request map carrying requestId "1", colliding with the entry already
pending in readyWithPending. -/
def request1 : Request := { requestId := some "1", paramsJson := "\x7b\x7d" }

/-- Witness for C10: re-registering id "1" (pending on handle 7) under the
new handle 9 delivers nothing, and afterwards "1" maps to 9 and occurs
exactly once in the table. -/
theorem processMessage_overwrite_witness :
    mapFind readyWithPending.pending_requests "1" = some 7 ∧
    (ProcessMessage readyWithPending request1 9 true).2.1 = [] ∧
    mapFind (ProcessMessage readyWithPending request1 9 true).1.pending_requests "1" =
      some 9 ∧
    countKey (ProcessMessage readyWithPending request1 9 true).1.pending_requests "1" = 1 := by
  have h := processMessage_overwrite readyWithPending request1 "1" 7 9 true
    rfl rfl (by decide) (by decide) (by decide)
  exact ⟨by decide, h.1, h.2.2.1, h.2.2.2⟩

end Mcp
